import Mathlib

/-!
Verification of the wfl_GPS capture-to-upload pipeline.

Shallow embedding of `src/upload_manager.py`, `src/gps_reader.py` and
`src/main_controller.py`.  Machine floats are modelled as rationals (every
numeric literal involved — 1.852, 2.0, 0.5 — is either exactly representable
or discussed at its use site); wall-clock side effects (`datetime.now()`,
`time.sleep`) are modelled as data (the list of sleep durations performed),
and the transport is an oracle giving the outcome of each attempted I/O.
-/

/-! ## Upload manager (`src/upload_manager.py`) -/

/-- Outcome of one `session.post` attempt inside `UploadManager.upload_sync`:
an HTTP response with a status code and body text, a timeout exception, a
connection-error exception, or any other unexpected exception. -/
inductive AttemptOutcome where
  | response (status : Nat) (text : String)
  | timeout
  | connError (msg : String)
  | otherExc (msg : String)
deriving DecidableEq

/-- Error messages produced by `upload_sync`, one constructor per `f`-string
in the source; `render` recovers the exact string the code stores. -/
inductive UploadErr where
  | clientError (status : Nat) (text : String)
  | serverError (status : Nat)
  | requestTimeout
  | connectionError (msg : String)
  | unexpectedError (msg : String)
  | maxRetriesExceeded
deriving DecidableEq

/-- Exact string stored in `UploadResult.error_message` by the source code. -/
def UploadErr.render : UploadErr → String
  | .clientError s t => "Client error: " ++ Nat.repr s ++ " - " ++ t
  | .serverError s => "Server error: " ++ Nat.repr s
  | .requestTimeout => "Request timeout"
  | .connectionError m => "Connection error: " ++ m
  | .unexpectedError m => "Unexpected error: " ++ m
  | .maxRetriesExceeded => "Max retries exceeded"

/-- The `UploadResult` dataclass (`upload_manager.py` lines 28-36); the
wall-clock `upload_time` field is not modelled. -/
structure UploadResult where
  success : Bool
  status_code : Option Nat
  response_data : Option String
  error_message : Option UploadErr
  retry_count : Nat
deriving DecidableEq

/-- Body of the `for attempt in range(self.max_retries)` loop of
`UploadManager.upload_sync` (lines 204-340).  `oc a` is the outcome of the
POST on attempt index `a`; the fuel argument keeps the invariant
`fuel = max_retries - a`, so `fuel = 0` is the loop falling through to the
trailing "Max retries exceeded" result (line 336, `retry_count = a`, since
the loop exits with `a = max_retries`), and the code's
`attempt < max_retries - 1` test is `fuel ≥ 2`.  The second component is the
list of `time.sleep` durations performed, in order; each retry sleeps
`retry_delay * 2 ** attempt` (lines 252, 277, 300). -/
def uploadSyncFrom (oc : Nat → AttemptOutcome) (d : ℚ) : Nat → Nat → UploadResult × List ℚ
  | 0, a => (⟨false, none, none, some .maxRetriesExceeded, a⟩, [])
  | f + 1, a =>
    match oc a with
    | .response s t =>
      if s = 200 then
        (⟨true, some s, some t, none, a⟩, [])
      else if s = 400 ∨ s = 401 ∨ s = 403 ∨ s = 404 then
        (⟨false, some s, none, some (.clientError s t), a⟩, [])
      else if f = 0 then
        (⟨false, some s, none, some (.serverError s), a + 1⟩, [])
      else
        let r := uploadSyncFrom oc d f (a + 1)
        (r.1, d * 2 ^ a :: r.2)
    | .timeout =>
      if f = 0 then
        (⟨false, none, none, some .requestTimeout, a + 1⟩, [])
      else
        let r := uploadSyncFrom oc d f (a + 1)
        (r.1, d * 2 ^ a :: r.2)
    | .connError m =>
      if f = 0 then
        (⟨false, none, none, some (.connectionError m), a + 1⟩, [])
      else
        let r := uploadSyncFrom oc d f (a + 1)
        (r.1, d * 2 ^ a :: r.2)
    | .otherExc m => (⟨false, none, none, some (.unexpectedError m), a + 1⟩, [])

/-- The `UploadManager.upload_sync` entry point: run the attempt loop from
attempt index 0 with `max_retries` iterations available (`d` is
`self.retry_delay`). -/
def upload_sync (oc : Nat → AttemptOutcome) (d : ℚ) (max_retries : Nat) : UploadResult × List ℚ :=
  uploadSyncFrom oc d max_retries 0

/-- Classification implicit in `upload_sync`: outcomes that take the
sleep-then-retry path when attempts remain (any HTTP status other than 200
and the four terminal client errors, a timeout, or a connection error). -/
def isRetryable : AttemptOutcome → Bool
  | .response s _ => !(s == 200 || s == 400 || s == 401 || s == 403 || s == 404)
  | .timeout => true
  | .connError _ => true
  | .otherExc _ => false

/-- Statistics dictionary of `UploadManager` (lines 80-86); the wall-clock
`last_upload_time` field is not modelled. -/
structure UMStats where
  total_uploaded : Nat
  total_failed : Nat
  queue_length : Nat
  last_error : Option String
deriving DecidableEq

/-- The `UploadManager.enqueue` method (lines 166-192).  The queue is a
Python `queue.Queue(maxsize=max_queue_size)`; `put(data, block=False)`
raises `queue.Full` exactly when `0 < maxsize ≤ qsize()` (a non-positive
maxsize means an unbounded queue).  On success the code refreshes the
`queue_length` statistic from `qsize()`; on `Full` it records
`last_error = "Queue full"` and returns `False`. -/
def enqueue {α : Type} (x : α) (q : List α) (maxsize : Nat) (st : UMStats) :
    Bool × List α × UMStats :=
  if 0 < maxsize ∧ maxsize ≤ q.length then
    (false, q, { st with last_error := some "Queue full" })
  else
    (true, q ++ [x], { st with queue_length := (q ++ [x]).length })

/-- Queue-occupancy classification inside `UploadManager.health_check`
(lines 414-422).  The source compares `qsize() > max_queue_size * 0.8` and
`qsize() > max_queue_size * 0.5` in IEEE doubles; `0.5` is exact, and for
every capacity below `2 ^ 50` the integer comparison against the rounded
double `max_queue_size * 0.8` coincides with the exact rational comparison
`queue_size > max_queue_size * 4/5` (the fractional part of
`max_queue_size * 4/5` is a multiple of `1/5`, while the accumulated
rounding error is below `10 ^ -4`), so the classification is modelled with
exact integer arithmetic. -/
def queue_status (queue_size max_queue_size : Nat) : String :=
  if 5 * queue_size > 4 * max_queue_size then "critical"
  else if 2 * queue_size > max_queue_size then "warning"
  else "ok"

/-- Backend-reachability probe of `UploadManager.health_check`
(lines 424-434): `probe = none` models the POST raising an exception (no
response), `probe = some code` a response with that status code.  The code
sets `backend_reachable = response.status_code in [200, 400, 404]`. -/
def backend_reachable (probe : Option Nat) : Bool :=
  match probe with
  | some code => code == 200 || code == 400 || code == 404
  | none => false

/-- Oracle for which every attempt yields an HTTP 500 response. -/
def oc500 : Nat → AttemptOutcome := fun _ => AttemptOutcome.response 500 "err"

/-! ## GPS reader (`src/gps_reader.py`) -/

/-! Register addresses of `GPSModbusRegisters` (`gps_reader.py` lines 73-118). -/

namespace GPSModbusRegisters

def VERSION : Nat := 0x0001

def POSITIONING_STATUS : Nat := 0x000A

def ANTENNA_STATUS : Nat := 0x000B

def BEIJING_YEAR : Nat := 0x0012

def BEIJING_MONTH : Nat := 0x0013

def BEIJING_DAY : Nat := 0x0014

def BEIJING_HOUR : Nat := 0x0015

def BEIJING_MINUTE : Nat := 0x0016

def BEIJING_SECOND : Nat := 0x0017

def LONGITUDE_DIRECTION : Nat := 0x0018

def LONGITUDE_VALUE : Nat := 0x0019

def LATITUDE_DIRECTION : Nat := 0x001B

def LATITUDE_VALUE : Nat := 0x001C

def ALTITUDE : Nat := 0x001E

def GROUND_SPEED : Nat := 0x0020

def GROUND_HEADING : Nat := 0x0022

def GPS_SATELLITES_USED : Nat := 0x0024

def BDS_SATELLITES_USED : Nat := 0x0026

end GPSModbusRegisters

/-- Local civil timestamp built by the code from the six Beijing-time
registers via `datetime(...)`. -/
structure Datetime where
  year : Nat
  month : Nat
  day : Nat
  hour : Nat
  minute : Nat
  second : Nat
deriving DecidableEq

/-- Leap-year rule used by Python's `datetime` for February. -/
def isLeapYear (y : Nat) : Bool :=
  (y % 4 == 0 && y % 100 != 0) || y % 400 == 0

/-- Number of days of month `m` in year `y` (0 for an out-of-range month). -/
def daysInMonth (y m : Nat) : Nat :=
  if m = 1 then 31
  else if m = 2 then (if isLeapYear y then 29 else 28)
  else if m = 3 then 31
  else if m = 4 then 30
  else if m = 5 then 31
  else if m = 6 then 30
  else if m = 7 then 31
  else if m = 8 then 31
  else if m = 9 then 30
  else if m = 10 then 31
  else if m = 11 then 30
  else if m = 12 then 31
  else 0

/-- Python `datetime(year, month, day, hour, minute, second)`: returns the
timestamp when the values form a valid calendar date-time, and `none` when
the constructor would raise `ValueError` (which `_read_beijing_time`
catches). -/
def mkDatetime (y mo d h mi s : Nat) : Option Datetime :=
  if 1 ≤ y ∧ y ≤ 9999 ∧ 1 ≤ mo ∧ mo ≤ 12 ∧ 1 ≤ d ∧ d ≤ daysInMonth y mo
      ∧ h ≤ 23 ∧ mi ≤ 59 ∧ s ≤ 59 then
    some ⟨y, mo, d, h, mi, s⟩
  else none

/-- The `GPSPosition` dataclass (`gps_reader.py` lines 55-70), with floats
as rationals. -/
structure GPSPosition where
  valid : Bool
  latitude : Option ℚ := none
  longitude : Option ℚ := none
  altitude : Option ℚ := none
  lat_direction : Option String := none
  lon_direction : Option String := none
  timestamp : Option Datetime := none
  antenna_status : Option String := none
  gps_satellites : Nat := 0
  bds_satellites : Nat := 0
  speed : Option ℚ := none
  heading : Option ℚ := none
  error_message : Option String := none
deriving DecidableEq

/-- Retry loop of `GPSReader._read_register` (lines 183-207): `tr addr k`
is the transport's answer to the k-th attempted Modbus read of register
`addr` during this call (`none` models the read raising).  The loop returns
the first successful value, or `none` once the retry budget is spent. -/
def readRegGo (tr : Nat → Nat → Option Nat) (addr : Nat) : Nat → Nat → Option Nat
  | _, 0 => none
  | a, r + 1 =>
    match tr addr a with
    | some v => some v
    | none => readRegGo tr addr (a + 1) r

/-- The `GPSReader._read_register` method with its default retry budget
of 3. -/
def read_register (tr : Nat → Nat → Option Nat) (addr : Nat) (retry : Nat) : Option Nat :=
  readRegGo tr addr 0 retry

/-- The `GPSReader._read_float` method (lines 209-235): identical retry
structure over the float-read oracle `trF`. -/
def readFloatGo (trF : Nat → Nat → Option ℚ) (addr : Nat) : Nat → Nat → Option ℚ
  | _, 0 => none
  | a, r + 1 =>
    match trF addr a with
    | some v => some v
    | none => readFloatGo trF addr (a + 1) r

/-- The `GPSReader._read_float` entry point with its default retry budget
of 3. -/
def read_float (trF : Nat → Nat → Option ℚ) (addr : Nat) (retry : Nat) : Option ℚ :=
  readFloatGo trF addr 0 retry

/-- The `GPSReader.read_version` method (lines 237-251):
`major = (v >> 4) & 0x0F`, `minor = v & 0x0F`, rendered as
`"{major}.{minor}"`; `none` when the register read fails. -/
def read_version (tr : Nat → Nat → Option Nat) : Option String :=
  match read_register tr GPSModbusRegisters.VERSION 3 with
  | none => none
  | some v => some (Nat.repr ((v >>> 4) &&& 0x0F) ++ "." ++ Nat.repr (v &&& 0x0F))

/-- Version string the claim asserts (spec: "returns the string
\x7bv>>4\x7d.\x7bv&0xF\x7d — the unmasked high part of v followed by a dot
and the low 4 bits"); stated from the spec's words for comparison with
`read_version`. -/
def claimedVersionString (v : Nat) : String :=
  Nat.repr (v >>> 4) ++ "." ++ Nat.repr (v &&& 0x0F)

/-- The `GPSReader.check_positioning_status` method (lines 253-261):
`status == PositioningStatus.VALID` (= 1) when the read succeeds, `False`
when it returns `None`. -/
def check_positioning_status (tr : Nat → Nat → Option Nat) : Bool :=
  match read_register tr GPSModbusRegisters.POSITIONING_STATUS 3 with
  | some v => v == 1
  | none => false

/-- The `GPSReader.check_antenna_status` method (lines 263-279):
0 ↦ "good", 1 ↦ "open", 2 ↦ "short", any other code ↦ "unknown", and
`none` when the register read fails. -/
def check_antenna_status (tr : Nat → Nat → Option Nat) : Option String :=
  match read_register tr GPSModbusRegisters.ANTENNA_STATUS 3 with
  | none => none
  | some v =>
    some (if v = 0 then "good" else if v = 1 then "open"
          else if v = 2 then "short" else "unknown")

/-- The `GPSReader._read_beijing_time` method (lines 281-303): six register
reads, `none` if any fails or the values are not a valid date-time. -/
def read_beijing_time (tr : Nat → Nat → Option Nat) : Option Datetime :=
  match read_register tr GPSModbusRegisters.BEIJING_YEAR 3,
      read_register tr GPSModbusRegisters.BEIJING_MONTH 3,
      read_register tr GPSModbusRegisters.BEIJING_DAY 3,
      read_register tr GPSModbusRegisters.BEIJING_HOUR 3,
      read_register tr GPSModbusRegisters.BEIJING_MINUTE 3,
      read_register tr GPSModbusRegisters.BEIJING_SECOND 3 with
  | some y, some mo, some d, some h, some mi, some s => mkDatetime y mo d h mi s
  | _, _, _, _, _, _ => none

/-- The `GPSReader.read_gps_data` method (lines 305-369): gate on
positioning status, then on antenna status, then the four position reads
(any failure there yields an invalid fix), then the optional fields.  The satellite counts use
Python's `x or 0` (both `None` and 0 collapse to 0). -/
def read_gps_data (tr : Nat → Nat → Option Nat) (trF : Nat → Nat → Option ℚ) : GPSPosition :=
  if check_positioning_status tr = false then
    { valid := false,
      error_message := some "Positioning invalid - waiting for GPS fix" }
  else
    let ant := check_antenna_status tr
    if ant = some "open" ∨ ant = some "short" then
      { valid := false, antenna_status := ant,
        error_message := some ("Antenna fault: " ++ ant.getD "") }
    else
      match read_register tr GPSModbusRegisters.LONGITUDE_DIRECTION 3,
          read_float trF GPSModbusRegisters.LONGITUDE_VALUE 3,
          read_register tr GPSModbusRegisters.LATITUDE_DIRECTION 3,
          read_float trF GPSModbusRegisters.LATITUDE_VALUE 3 with
      | some lonDir, some lonVal, some latDir, some latVal =>
        { valid := true,
          latitude := some latVal,
          longitude := some lonVal,
          altitude := read_float trF GPSModbusRegisters.ALTITUDE 3,
          lat_direction := some (if latDir = 0x4E then "N" else "S"),
          lon_direction := some (if lonDir = 0x45 then "E" else "W"),
          timestamp := read_beijing_time tr,
          antenna_status := ant,
          gps_satellites := (read_register tr GPSModbusRegisters.GPS_SATELLITES_USED 3).getD 0,
          bds_satellites := (read_register tr GPSModbusRegisters.BDS_SATELLITES_USED 3).getD 0,
          speed := read_float trF GPSModbusRegisters.GROUND_SPEED 3,
          heading := read_float trF GPSModbusRegisters.GROUND_HEADING 3 }
      | _, _, _, _ =>
        { valid := false, error_message := some "Failed to read position data" }

/-! ## Position dictionary and main controller (`src/main_controller.py`) -/

/-- The `location` sub-dictionary built by `GPSReader.get_position_dict`
(lines 394-405). -/
structure LocationDict where
  latitude : Option ℚ
  longitude : Option ℚ
  altitude : Option ℚ
  lat_dir : Option String
  lon_dir : Option String
  speed_knots : Option ℚ
  heading_degrees : Option ℚ
deriving DecidableEq

/-- The dictionary returned by `GPSReader.get_position_dict`
(lines 371-407): `location` is present exactly when the fix is valid. -/
structure PositionDict where
  valid : Bool
  timestamp : Option Datetime
  location : Option LocationDict
  antenna : Option String
  gps_sats : Nat
  bds_sats : Nat
  error : Option String
deriving DecidableEq

/-- The `GPSReader.get_position_dict` conversion of a `GPSPosition`. -/
def get_position_dict (p : GPSPosition) : PositionDict :=
  { valid := p.valid,
    timestamp := p.timestamp,
    location :=
      if p.valid then
        some ⟨p.latitude, p.longitude, p.altitude, p.lat_direction,
              p.lon_direction, p.speed, p.heading⟩
      else none,
    antenna := p.antenna_status,
    gps_sats := p.gps_satellites,
    bds_sats := p.bds_satellites,
    error := p.error_message }

/-- The `CaptureResult` dataclass of `src/camera_manager.py` (lines 36-44);
only the fields `_capture_task` touches are modelled. -/
structure CaptureResult where
  success : Bool
  image_base64 : Option String
  timestamp : Option Datetime
  file_size : Nat
  error_message : Option String
deriving DecidableEq

/-- Controller statistics (`main_controller.py` lines 61-71); the
wall-clock `start_time` / `last_capture_time` fields are not modelled. -/
structure CtrlStats where
  total_captures : Nat
  successful_captures : Nat
  failed_captures : Nat
  gps_valid_count : Nat
  gps_invalid_count : Nat
  upload_count : Nat
  last_error : Option String
deriving DecidableEq

/-- The payload assembled by `_capture_task` (lines 206-213).  The numeric
fields carry the values; their decimal-string rendering (6 fractional
digits for lng/lat, 2 for speed, empty string when absent) is not
modelled. -/
structure UploadPayload where
  deviceCode : String
  lng : Option ℚ
  lat : Option ℚ
  img : Option String
  algTime : Option Datetime
  speed : Option ℚ
deriving DecidableEq

/-- Speed in km/h computed by `_capture_task` (lines 201-205) from a fix:
`speed_knots = location.get('speed_knots') if gps_data['valid'] else None`
and `speed_kmh = speed_knots * 1.852` when that is a number, else `None`
(1.852 = 463/250 is exactly representable as a double, and
`k * 1.852 == 0.0` in doubles iff `k == 0.0`, matching the rational
model). -/
def speedKmhOf (p : GPSPosition) : Option ℚ :=
  let g := get_position_dict p
  (if g.valid then g.location.bind LocationDict.speed_knots else none).map
    fun k => k * (1852 / 1000)

/-- Result of one run of `MainController._capture_task`: whether the GPS
reader was consulted, whether `upload_manager.enqueue` was called (and with
which payload), and the updated controller statistics. -/
structure CycleOutcome where
  gpsRead : Bool
  enqueueCalled : Bool
  enqueuedPayload : Option UploadPayload
  stats : CtrlStats
deriving DecidableEq

/-- One run of `MainController._capture_task` (lines 146-251) with at least
one camera configured: `paused` is `self.paused`, `cap` the selected
camera's capture result, `fix` the position the GPS reader would report
this cycle, and `enqueueOk` whether `upload_manager.enqueue` accepts the
payload (queue not full).  An early return on `paused` does nothing; a
failed capture updates the failure statistics and aborts before the GPS
read; otherwise the GPS dictionary is read, the payload assembled, and the
enqueue is skipped exactly when the computed km/h speed is `None` or 0
(lines 217-231), after which the success statistics are updated. -/
def capture_task (paused : Bool) (deviceCode : String) (cap : CaptureResult)
    (fix : GPSPosition) (enqueueOk : Bool) (st : CtrlStats) : CycleOutcome :=
  if paused then
    { gpsRead := false, enqueueCalled := false, enqueuedPayload := none, stats := st }
  else if cap.success = false then
    { gpsRead := false, enqueueCalled := false, enqueuedPayload := none,
      stats := { st with
        failed_captures := st.failed_captures + 1,
        total_captures := st.total_captures + 1,
        last_error := cap.error_message } }
  else
    let g := get_position_dict fix
    let st1 :=
      if g.valid then { st with gps_valid_count := st.gps_valid_count + 1 }
      else { st with gps_invalid_count := st.gps_invalid_count + 1 }
    let lngValue := if g.valid then g.location.bind LocationDict.longitude else none
    let latValue := if g.valid then g.location.bind LocationDict.latitude else none
    let kmh := speedKmhOf fix
    let payload : UploadPayload :=
      { deviceCode := deviceCode, lng := lngValue, lat := latValue,
        img := cap.image_base64, algTime := cap.timestamp, speed := kmh }
    if kmh = none ∨ kmh = some 0 then
      { gpsRead := true, enqueueCalled := false, enqueuedPayload := none,
        stats := { st1 with
          successful_captures := st1.successful_captures + 1,
          total_captures := st1.total_captures + 1 } }
    else if enqueueOk then
      { gpsRead := true, enqueueCalled := true, enqueuedPayload := some payload,
        stats := { st1 with
          upload_count := st1.upload_count + 1,
          successful_captures := st1.successful_captures + 1,
          total_captures := st1.total_captures + 1 } }
    else
      { gpsRead := true, enqueueCalled := true, enqueuedPayload := some payload,
        stats := { st1 with
          last_error := some "Upload queue full",
          successful_captures := st1.successful_captures + 1,
          total_captures := st1.total_captures + 1 } }

/-! ## Theorems -/

/-- C7: for every payload and every HTTP response with status code in
\x7b400, 401, 403, 404\x7d, `upload_sync` returns a failure result
immediately with that status code, performing no further delivery attempts
and no backoff sleep, regardless of how many retry attempts remain (the
result does not depend on the remaining fuel `f`, and the sleep list is
empty). -/
theorem upload_client_error_terminal (oc : Nat → AttemptOutcome) (d : ℚ) (f a s : Nat)
    (t : String) (hoc : oc a = .response s t)
    (hs : s = 400 ∨ s = 401 ∨ s = 403 ∨ s = 404) :
    uploadSyncFrom oc d (f + 1) a =
      (⟨false, some s, none, some (.clientError s t), a⟩, []) := by
  have h200 : ¬s = 200 := by rcases hs with h | h | h | h <;> omega
  simp only [uploadSyncFrom, hoc]
  rw [if_neg h200, if_pos hs]

/-- Oracle for which every attempt yields an HTTP 404 response. -/
def oc404 : Nat → AttemptOutcome := fun _ => AttemptOutcome.response 404 "not found"

/-- Witness for C7 at a concrete 404 response with five retries left. -/
theorem upload_client_error_terminal_witness :
    oc404 0 = AttemptOutcome.response 404 "not found" ∧
    uploadSyncFrom oc404 2 6 0 =
      (⟨false, some 404, none, some (.clientError 404 "not found"), 0⟩, []) :=
  ⟨rfl, upload_client_error_terminal oc404 2 5 0 404 "not found" rfl (by norm_num)⟩

/-- C8: for every retryable failure (status not 200 and not 400/401/403/404,
timeout, or connection error) on attempt index `a` with attempts remaining
(fuel at least 2), the loop sleeps exactly `retry_delay * 2 ^ a` before the
next attempt and continues with the remaining fuel; iterating this with
`retry_delay = 2.0` gives the sleeps 2.0, 4.0, 8.0 before the retries after
attempts 0, 1, 2 (see the witness). -/
theorem upload_retry_backoff (oc : Nat → AttemptOutcome) (d : ℚ) (f a : Nat)
    (h : isRetryable (oc a) = true) :
    uploadSyncFrom oc d (f + 1 + 1) a =
      ((uploadSyncFrom oc d (f + 1) (a + 1)).1,
        d * 2 ^ a :: (uploadSyncFrom oc d (f + 1) (a + 1)).2) := by
  cases hoc : oc a with
  | response s t =>
    rw [hoc] at h
    simp only [isRetryable, Bool.not_eq_true', Bool.or_eq_false_iff, beq_eq_false_iff_ne,
      ne_eq] at h
    obtain ⟨⟨⟨⟨h200, h400⟩, h401⟩, h403⟩, h404⟩ := h
    have hcl : ¬(s = 400 ∨ s = 401 ∨ s = 403 ∨ s = 404) := by omega
    simp only [uploadSyncFrom, hoc]
    rw [if_neg h200, if_neg hcl, if_neg (Nat.succ_ne_zero f)]
  | timeout =>
    simp only [uploadSyncFrom, hoc]
    rw [if_neg (Nat.succ_ne_zero f)]
  | connError m =>
    simp only [uploadSyncFrom, hoc]
    rw [if_neg (Nat.succ_ne_zero f)]
  | otherExc m => simp [isRetryable, hoc] at h

/-- Witness for C8: a 500 response is retryable, one application of the
theorem produces the `2 * 2 ^ 0` sleep, and the full run with
`retry_delay = 2.0` and four attempts sleeps exactly 2.0, 4.0, 8.0 seconds
before the retries after attempts 0, 1, 2. -/
theorem upload_retry_backoff_witness :
    isRetryable (oc500 0) = true ∧
    uploadSyncFrom oc500 2 2 0 =
      ((uploadSyncFrom oc500 2 1 1).1, 2 * 2 ^ 0 :: (uploadSyncFrom oc500 2 1 1).2) ∧
    (upload_sync oc500 2 4).2 = [2, 4, 8] := by
  refine ⟨rfl, upload_retry_backoff oc500 2 0 0 rfl, ?_⟩
  have h1 : uploadSyncFrom oc500 2 4 0 =
      ((uploadSyncFrom oc500 2 3 1).1, 2 * 2 ^ 0 :: (uploadSyncFrom oc500 2 3 1).2) :=
    upload_retry_backoff oc500 2 2 0 rfl
  have h2 : uploadSyncFrom oc500 2 3 1 =
      ((uploadSyncFrom oc500 2 2 2).1, 2 * 2 ^ 1 :: (uploadSyncFrom oc500 2 2 2).2) :=
    upload_retry_backoff oc500 2 1 1 rfl
  have h3 : uploadSyncFrom oc500 2 2 2 =
      ((uploadSyncFrom oc500 2 1 3).1, 2 * 2 ^ 2 :: (uploadSyncFrom oc500 2 1 3).2) :=
    upload_retry_backoff oc500 2 0 2 rfl
  have h4 : (uploadSyncFrom oc500 2 1 3).2 = ([] : List ℚ) := rfl
  show (uploadSyncFrom oc500 2 4 0).2 = [2, 4, 8]
  rw [h1]
  show (2 : ℚ) * 2 ^ 0 :: (uploadSyncFrom oc500 2 3 1).2 = [2, 4, 8]
  rw [h2]
  show (2 : ℚ) * 2 ^ 0 :: 2 * 2 ^ 1 :: (uploadSyncFrom oc500 2 2 2).2 = [2, 4, 8]
  rw [h3]
  show (2 : ℚ) * 2 ^ 0 :: 2 * 2 ^ 1 :: 2 * 2 ^ 2 :: (uploadSyncFrom oc500 2 1 3).2 = [2, 4, 8]
  rw [h4]
  norm_num

/-- C9: with a positive configured capacity, enqueueing onto a queue already
holding `maxsize` items returns `False`, leaves the queue unchanged (still
exactly `maxsize` items) and records the "Queue full" condition in the
statistics, while enqueueing below capacity returns `True` and grows the
queue by exactly one item. -/
theorem enqueue_capacity {α : Type} (x : α) (q : List α) (maxsize : Nat) (st : UMStats)
    (hpos : 0 < maxsize) :
    (q.length = maxsize →
      enqueue x q maxsize st = (false, q, { st with last_error := some "Queue full" })) ∧
    (q.length < maxsize →
      enqueue x q maxsize st = (true, q ++ [x], { st with queue_length := q.length + 1 })) := by
  constructor
  · intro hfull
    simp only [enqueue]
    rw [if_pos ⟨hpos, by omega⟩]
  · intro hlt
    simp only [enqueue]
    rw [if_neg (by omega)]
    simp

/-- Witness for C9: a queue of two items at capacity 2 rejects the new
payload, keeps its two items unchanged and records "Queue full". -/
theorem enqueue_capacity_witness :
    enqueue 7 [1, 2] 2 ⟨0, 0, 0, none⟩ =
      (false, [1, 2], (⟨0, 0, 0, some "Queue full"⟩ : UMStats)) :=
  (enqueue_capacity 7 [1, 2] 2 ⟨0, 0, 0, none⟩ (by norm_num)).1 (by norm_num)

/-- C10: with at least one attempt available, `upload_sync` always returns
from inside the attempt loop (its result never carries the trailing
"Max retries exceeded" fallback), and the fallback is returned exactly when
`max_retries` is zero (Python `max_retries <= 0`, since `range` of a
non-positive count is empty). -/
theorem upload_fallback_only_without_attempts (oc : Nat → AttemptOutcome) (d : ℚ) :
    (∀ f a, 1 ≤ f →
      (uploadSyncFrom oc d f a).1.error_message ≠ some UploadErr.maxRetriesExceeded) ∧
    upload_sync oc d 0 = (⟨false, none, none, some .maxRetriesExceeded, 0⟩, []) := by
  constructor
  · intro f
    induction f with
    | zero => intro a h; omega
    | succ f ih =>
      intro a _
      cases hoc : oc a with
      | response s t =>
        simp only [uploadSyncFrom, hoc]
        by_cases h200 : s = 200
        · rw [if_pos h200]; simp
        · rw [if_neg h200]
          by_cases hcl : s = 400 ∨ s = 401 ∨ s = 403 ∨ s = 404
          · rw [if_pos hcl]; simp
          · rw [if_neg hcl]
            by_cases hf : f = 0
            · rw [if_pos hf]; simp
            · rw [if_neg hf]
              simpa using ih (a + 1) (by omega)
      | timeout =>
        simp only [uploadSyncFrom, hoc]
        by_cases hf : f = 0
        · rw [if_pos hf]; simp
        · rw [if_neg hf]
          simpa using ih (a + 1) (by omega)
      | connError m =>
        simp only [uploadSyncFrom, hoc]
        by_cases hf : f = 0
        · rw [if_pos hf]; simp
        · rw [if_neg hf]
          simpa using ih (a + 1) (by omega)
      | otherExc m => simp [uploadSyncFrom, hoc]
  · rfl

/-- Witness for C10 at three attempts of fuel against an all-500 backend:
the result is not the fallback. -/
theorem upload_fallback_witness :
    (1 : Nat) ≤ 3 ∧
    (uploadSyncFrom oc500 2 3 0).1.error_message ≠ some UploadErr.maxRetriesExceeded :=
  ⟨by norm_num, (upload_fallback_only_without_attempts oc500 2).1 3 0 (by norm_num)⟩

/-- C4 counterexample: a queue holding exactly 50% of capacity (500 of
1000) is classified "ok" by `health_check`, not "warning" as the claim
states (the code tests `qsize() > max_queue_size * 0.5` strictly). -/
theorem queue_status_half_counterexample :
    queue_status 500 1000 = "ok" ∧ queue_status 500 1000 ≠ "warning" := by
  refine ⟨rfl, ?_⟩
  intro h
  rw [queue_status] at h
  norm_num at h
  exact absurd h (by decide)

/-- C4 amended: occupancy at or below 50% of capacity is "ok" (in
particular exactly 50% is "ok", not "warning"), strictly between 50% and
80% inclusive is "warning", and strictly above 80% is "critical". -/
theorem queue_status_amended (q C : Nat) :
    (2 * q ≤ C → queue_status q C = "ok") ∧
    (C < 2 * q → 5 * q ≤ 4 * C → queue_status q C = "warning") ∧
    (4 * C < 5 * q → queue_status q C = "critical") := by
  refine ⟨fun h => ?_, fun h1 h2 => ?_, fun h => ?_⟩
  · rw [queue_status, if_neg (by omega), if_neg (by omega)]
  · rw [queue_status, if_neg (by omega), if_pos (by omega)]
  · rw [queue_status, if_pos (by omega)]

/-- Witness for C4's amended classification at the three representative
occupancies 500, 700 and 900 of capacity 1000. -/
theorem queue_status_amended_witness :
    queue_status 500 1000 = "ok" ∧ queue_status 700 1000 = "warning" ∧
    queue_status 900 1000 = "critical" :=
  ⟨(queue_status_amended 500 1000).1 (by norm_num),
    (queue_status_amended 700 1000).2.1 (by norm_num) (by norm_num),
    (queue_status_amended 900 1000).2.2 (by norm_num)⟩

/-- C5: `health_check` marks the backend unreachable for a 401 (and 500)
response even though the probe produced a response; the code's own inline
comment says any response counts as reachable, but the code only accepts
status codes 200, 400 and 404. -/
theorem backend_reachable_rejects_other_responses :
    backend_reachable (some 401) = false ∧ backend_reachable (some 500) = false ∧
    backend_reachable (some 200) = true ∧ backend_reachable none = false := by
  decide

/-- Helper: the register-read retry loop yields `none` when every attempt
within the budget fails. -/
theorem readRegGo_none (tr : Nat → Nat → Option Nat) (addr : Nat) :
    ∀ r a, (∀ k, k < r → tr addr (a + k) = none) → readRegGo tr addr a r = none := by
  intro r
  induction r with
  | zero => intro a _; rfl
  | succ r ih =>
    intro a h
    have h0 : tr addr a = none := by simpa using h 0 (by omega)
    simp only [readRegGo, h0]
    exact ih (a + 1) fun k hk => by
      have h2 := h (k + 1) (by omega)
      rw [show a + 1 + k = a + (k + 1) by omega]
      exact h2

/-- Transport oracle whose version register always reads 291 (0x123). -/
def trv : Nat → Nat → Option Nat := fun _ _ => some 291

/-- C3 counterexample: for the 16-bit version value 291 (0x123) the claim
predicts the string "18.3" (unmasked `v >> 4`), but `read_version` masks
the high part with `& 0x0F` and returns "2.3". -/
theorem read_version_claim_counterexample :
    read_register trv GPSModbusRegisters.VERSION 3 = some 291 ∧
    claimedVersionString 291 = "18.3" ∧
    read_version trv = some "2.3" ∧
    read_version trv ≠ some (claimedVersionString 291) := by
  refine ⟨rfl, rfl, rfl, ?_⟩
  intro h
  rw [show read_version trv = some "2.3" from rfl,
    show claimedVersionString 291 = "18.3" from rfl] at h
  exact absurd (Option.some.inj h) (by decide)

/-- C3 amended: for every 16-bit value `v` successfully read from the
version register, `read_version` returns the string
"\x7b(v>>4)&0xF\x7d.\x7bv&0xF\x7d" (both nibbles masked to 4 bits), and it
returns `None` when the register read fails on every attempt of its retry
budget of 3. -/
theorem read_version_amended (tr : Nat → Nat → Option Nat) :
    (∀ v, read_register tr GPSModbusRegisters.VERSION 3 = some v →
      read_version tr =
        some (Nat.repr ((v >>> 4) &&& 0x0F) ++ "." ++ Nat.repr (v &&& 0x0F))) ∧
    ((∀ a, a < 3 → tr GPSModbusRegisters.VERSION a = none) → read_version tr = none) := by
  constructor
  · intro v hv
    simp only [read_version, hv]
  · intro hfail
    have hnone : read_register tr GPSModbusRegisters.VERSION 3 = none :=
      readRegGo_none tr _ 3 0 fun k hk => by simpa using hfail k hk
    simp only [read_version, hnone]

/-- Witness for C3's amended claim at the concrete register value 291. -/
theorem read_version_amended_witness :
    read_register trv GPSModbusRegisters.VERSION 3 = some 291 ∧
    read_version trv =
      some (Nat.repr ((291 >>> 4) &&& 0x0F) ++ "." ++ Nat.repr (291 &&& 0x0F)) :=
  ⟨rfl, (read_version_amended trv).1 291 rfl⟩

/-- C1: whenever the positioning-status register reads as valid (1) but the
antenna-status register decodes to "open" (1) or "short" (2),
`read_gps_data` returns a fix with `valid = false`, `antenna_status` set to
the decoded value, and the error message "Antenna fault: open" /
"Antenna fault: short" — the antenna fault overrides the raw
positioning-valid flag. -/
theorem read_gps_antenna_fault (tr : Nat → Nat → Option Nat) (trF : Nat → Nat → Option ℚ)
    (w : Nat)
    (hpos : read_register tr GPSModbusRegisters.POSITIONING_STATUS 3 = some 1)
    (hant : read_register tr GPSModbusRegisters.ANTENNA_STATUS 3 = some w)
    (hw : w = 1 ∨ w = 2) :
    read_gps_data tr trF =
      { valid := false,
        antenna_status := some (if w = 1 then "open" else "short"),
        error_message :=
          some ("Antenna fault: " ++ (if w = 1 then "open" else "short")) } := by
  have hps : check_positioning_status tr = true := by
    simp [check_positioning_status, hpos]
  have hdec : check_antenna_status tr = some (if w = 1 then "open" else "short") := by
    rcases hw with h | h <;> subst h <;> simp [check_antenna_status, hant]
  rcases hw with h | h <;> subst h <;> simp_all [read_gps_data]

/-- Transport oracle: positioning status reads valid, antenna status reads
open-circuit, every other register read fails. -/
def trAnt : Nat → Nat → Option Nat := fun addr _ =>
  if addr = GPSModbusRegisters.POSITIONING_STATUS then some 1
  else if addr = GPSModbusRegisters.ANTENNA_STATUS then some 1
  else none

/-- Float-read oracle that always fails. -/
def trFnone : Nat → Nat → Option ℚ := fun _ _ => none

/-- Witness for C1: with positioning valid and the antenna register reading
1 (open), the full-fix read reports an invalid fix with the antenna fault
message. -/
theorem read_gps_antenna_fault_witness :
    read_register trAnt GPSModbusRegisters.POSITIONING_STATUS 3 = some 1 ∧
    read_register trAnt GPSModbusRegisters.ANTENNA_STATUS 3 = some 1 ∧
    read_gps_data trAnt trFnone =
      { valid := false, antenna_status := some "open",
        error_message := some "Antenna fault: open" } := by
  refine ⟨rfl, rfl, ?_⟩
  have h := read_gps_antenna_fault trAnt trFnone 1 rfl rfl (Or.inl rfl)
  simpa using h

/-- C2: in every capture cycle, `upload_manager.enqueue` is called exactly
when the cycle is not paused, the camera capture succeeded, and the
computed km/h speed is known (valid fix carrying a speed) and not exactly
zero; in particular an unknown or exactly-zero speed never reaches
enqueue, regardless of whether the GPS fix was valid, and otherwise the
assembled payload is enqueued. -/
theorem capture_task_speed_gate (paused : Bool) (dc : String) (cap : CaptureResult)
    (fix : GPSPosition) (enqueueOk : Bool) (st : CtrlStats) :
    (capture_task paused dc cap fix enqueueOk st).enqueueCalled = true ↔
      (paused = false ∧ cap.success = true ∧
        speedKmhOf fix ≠ none ∧ speedKmhOf fix ≠ some 0) := by
  cases paused with
  | true => simp [capture_task]
  | false =>
    cases hcs : cap.success with
    | false => simp [capture_task, hcs]
    | true =>
      by_cases hnone : speedKmhOf fix = none
      · simp [capture_task, hcs, hnone]
      · by_cases hzero : speedKmhOf fix = some 0
        · simp [capture_task, hcs, hnone, hzero]
        · cases enqueueOk <;> simp [capture_task, hcs, hnone, hzero]

/-- C6: a cycle whose camera capture fails performs no positioning read and
no enqueue, and updates the failure statistics (`failed_captures` and
`total_captures` incremented, `last_error` set to the capture's error
message) before aborting. -/
theorem capture_task_failure_aborts (dc : String) (cap : CaptureResult) (fix : GPSPosition)
    (enqueueOk : Bool) (st : CtrlStats) (hfail : cap.success = false) :
    capture_task false dc cap fix enqueueOk st =
      { gpsRead := false, enqueueCalled := false, enqueuedPayload := none,
        stats := { st with
          failed_captures := st.failed_captures + 1,
          total_captures := st.total_captures + 1,
          last_error := cap.error_message } } := by
  simp [capture_task, hfail]

/-- Failed capture result as `CameraManager.capture` produces on a read
failure. -/
def capFail : CaptureResult :=
  { success := false, image_base64 := none, timestamp := none, file_size := 0,
    error_message := some "Failed to capture frame" }

/-- Fix used only as the unread GPS input of the witness cycle. -/
def fixInvalid : GPSPosition := { valid := false }

/-- Fresh controller statistics. -/
def st0 : CtrlStats := ⟨0, 0, 0, 0, 0, 0, none⟩

/-- Witness for C6 at a concrete failed capture on fresh statistics. -/
theorem capture_task_failure_witness :
    capFail.success = false ∧
    capture_task false "TERMINAL_001" capFail fixInvalid true st0 =
      { gpsRead := false, enqueueCalled := false, enqueuedPayload := none,
        stats := ⟨1, 0, 1, 0, 0, 0, some "Failed to capture frame"⟩ } := by
  refine ⟨rfl, ?_⟩
  have h := capture_task_failure_aborts "TERMINAL_001" capFail fixInvalid true st0 rfl
  simpa [capFail, st0] using h
